import Mathlib

/-!
Verification development for the Venturelens startup-analysis engine.

The definitions below are a shallow embedding of the Python source:

* `master_agent/sub_agents/benchmarking_agent/tools.py`
  (`BenchmarkAnalysisEngine`: percentile scoring, assessments, dynamic
  benchmarks, dynamic weights, overall score, pros/cons, BigQuery save);
* `master_agent/sub_agents/risk_detection_agent/tools.py`
  (`RiskAnalysisEngine`: risk matrix, overall risk score);
* `master_agent/sub_agents/document_preprocessing_agent/agent.py`
  (`enhanced_pdf_extraction_pipeline`).

Python floats are modelled as exact rationals (`ℚ`); Python dicts with
string keys are modelled as association lists or fixed-field structures in
dict insertion order; Python's stable `sorted` is modelled by a stable
insertion sort; fallible operations are modelled with `Option`/`Except`.
Display-only string fields (`startup_value`, `sector_median`,
`sector_top_quartile`) of `BenchmarkMetric`, which are produced by Python
f-string number formatting and are read by no computation in the source,
are elided from the embedded record.
-/

/-- ASCII lower-casing of one character; model of Python `str.lower` per
character (all strings the source lower-cases are ASCII). -/
def asciiLower (c : Char) : Char :=
  if 65 ≤ c.toNat ∧ c.toNat ≤ 90 then Char.ofNat (c.toNat + 32) else c

/-- ASCII upper-casing of one character. -/
def asciiUpper (c : Char) : Char :=
  if 97 ≤ c.toNat ∧ c.toNat ≤ 122 then Char.ofNat (c.toNat - 32) else c

/-- Model of Python `str.lower()` for ASCII strings. -/
def pyLower (s : String) : String := String.mk (s.data.map asciiLower)

/-- Whether a character is an ASCII letter (used by the `title()` model). -/
def isAsciiAlpha (c : Char) : Bool :=
  (97 ≤ c.toNat && c.toNat ≤ 122) || (65 ≤ c.toNat && c.toNat ≤ 90)

/-- Helper for `pyTitle`: the Boolean records whether the previous
character was a letter (Python `str.title()` upper-cases a letter that
follows a non-letter and lower-cases every other letter). -/
def pyTitleAux : Bool → List Char → List Char
  | _, [] => []
  | prevAlpha, c :: cs =>
      let c2 := if isAsciiAlpha c then
                  (if prevAlpha then asciiLower c else asciiUpper c)
                else c
      c2 :: pyTitleAux (isAsciiAlpha c) cs

/-- Model of Python `str.title()` for ASCII strings. -/
def pyTitle (s : String) : String := String.mk (pyTitleAux false s.data)

/-- Model of Python `name.replace('_', ' ')` (single-character pattern,
so a character map is exact). -/
def replaceUnderscores (s : String) : String :=
  String.mk (s.data.map (fun c => if c = '_' then ' ' else c))

/-- Model of the Python substring test `sub in s`. -/
def strContains (s sub : String) : Bool := decide (List.IsInfix sub.data s.data)

/-- Stable insertion of `a` after every element it is not strictly
`lt`-below; building block of the stable-sort model. -/
def stableInsert {α : Type} (lt : α → α → Bool) (a : α) : List α → List α
  | [] => [a]
  | b :: bs => if lt a b then a :: b :: bs else b :: stableInsert lt a bs

/-- Model of Python's stable `sorted(l, key=...)`: a stable insertion sort
ordered by the strict comparison `lt`; elements comparing equal keep their
first-seen input order. -/
def pySortedBy {α : Type} (lt : α → α → Bool) (l : List α) : List α :=
  l.foldl (fun acc x => stableInsert lt x acc) []

/-- Python `round` (banker's rounding, half to even) on an exact rational. -/
def pyRoundInt (x : ℚ) : ℤ :=
  if x - ⌊x⌋ < 1/2 then ⌊x⌋
  else if (1 : ℚ)/2 < x - ⌊x⌋ then ⌊x⌋ + 1
  else if ⌊x⌋ % 2 = 0 then ⌊x⌋ else ⌊x⌋ + 1

/-- Python `round(x, 1)` on an exact rational. -/
def pyRound1 (x : ℚ) : ℚ := (pyRoundInt (x * 10) : ℚ) / 10

/-- Embedded `BenchmarkMetric` dataclass (tools.py lines 40-49); the three
display-only formatted string fields are elided, see the module comment. -/
structure BenchmarkMetric where
  name : String
  score : ℚ
  assessment : String
  category : String
deriving DecidableEq

/-- The `company_data` dictionary as read by the benchmarking engine: one
field per key the engine reads, with the `dict.get` default as the
structure default (an absent key behaves exactly like the default value). -/
structure CompanyData where
  company_name : String := "Unknown"
  sector : String := "SaaS"
  stage : String := "Series_B"
  revenue_growth_yoy : ℚ := 0
  burn_multiple : ℚ := 0
  total_addressable_market : ℚ := 0
  technology_differentiation_score : ℚ := 5
  team_experience_score : ℚ := 5
  customer_count : ℚ := 0
  funding_efficiency_score : ℚ := 5
deriving DecidableEq

/-- Embedded `_get_sector_median` (tools.py lines 247-275): the nested
dictionary literal is written as the corresponding nested key tests. -/
def get_sector_median (sector metric : String) (default : ℚ) : ℚ :=
  if sector = "saas" then
    if metric = "revenue_growth" then 65
    else if metric = "burn_multiple" then 2.8
    else if metric = "cac_payback" then 18
    else if metric = "customer_count" then 800
    else default
  else if sector = "ecommerce" then
    if metric = "revenue_growth" then 85
    else if metric = "burn_multiple" then 4.2
    else if metric = "cac_payback" then 12
    else if metric = "customer_count" then 2000
    else default
  else if sector = "fintech" then
    if metric = "revenue_growth" then 75
    else if metric = "burn_multiple" then 3.2
    else if metric = "cac_payback" then 15
    else if metric = "customer_count" then 1200
    else default
  else if sector = "marketplace" then
    if metric = "revenue_growth" then 90
    else if metric = "burn_multiple" then 3.8
    else if metric = "cac_payback" then 14
    else if metric = "customer_count" then 5000
    else default
  else default

/-- Embedded `_calculate_percentile_score` (tools.py lines 277-309). -/
def calculate_percentile_score (value median : ℚ) (direction : String) : ℚ :=
  if median = 0 then 5.0
  else
    let ratio := value / median
    if direction = "higher_better" then
      if ratio ≥ 2.0 then 10.0
      else if ratio ≥ 1.5 then 8.5
      else if ratio ≥ 1.2 then 7.0
      else if ratio ≥ 1.0 then 6.0
      else if ratio ≥ 0.8 then 4.0
      else 2.0
    else
      if ratio ≤ 0.5 then 10.0
      else if ratio ≤ 0.7 then 8.5
      else if ratio ≤ 0.9 then 7.0
      else if ratio ≤ 1.1 then 6.0
      else if ratio ≤ 1.3 then 4.0
      else 2.0

/-- Embedded `_generate_assessment` (tools.py lines 311-335). -/
def generate_assessment (value median : ℚ) (direction : String) : String :=
  if median = 0 then "Insufficient data for comparison"
  else
    let ratio := value / median
    if direction = "higher_better" then
      if ratio ≥ 2.0 then "Exceptional - significantly outperforming sector"
      else if ratio ≥ 1.2 then "Strong - above sector median"
      else if ratio ≥ 0.8 then "Average - near sector median"
      else "Below Average - underperforming sector"
    else
      if ratio ≤ 0.7 then "Exceptional - significantly more efficient than sector"
      else if ratio ≤ 1.1 then "Strong - better than sector median"
      else if ratio ≤ 1.3 then "Average - near sector median"
      else "Below Average - less efficient than sector"

/-- Embedded `_calculate_tam_score` (tools.py lines 337-350). -/
def calculate_tam_score (tam : ℚ) : ℚ :=
  if tam ≥ 50000000000 then 10.0
  else if tam ≥ 10000000000 then 8.5
  else if tam ≥ 5000000000 then 7.0
  else if tam ≥ 1000000000 then 6.0
  else if tam ≥ 500000000 then 4.0
  else 2.0

/-- Embedded `_generate_tam_assessment` (tools.py lines 352-361). -/
def generate_tam_assessment (tam : ℚ) : String :=
  if tam ≥ 50000000000 then "Exceptional - massive addressable market"
  else if tam ≥ 10000000000 then "Strong - large addressable market"
  else if tam ≥ 1000000000 then "Good - significant market opportunity"
  else "Limited - smaller market opportunity"

/-- Embedded `_generate_tech_assessment` (tools.py lines 363-372). -/
def generate_tech_assessment (score : ℚ) : String :=
  if score ≥ 8 then "Strong - clear competitive moats"
  else if score ≥ 6 then "Good - some differentiation"
  else if score ≥ 4 then "Average - limited differentiation"
  else "Weak - commoditized offering"

/-- Embedded `_generate_team_assessment` (tools.py lines 374-383). -/
def generate_team_assessment (score : ℚ) : String :=
  if score ≥ 8 then "Exceptional - proven leadership team"
  else if score ≥ 6 then "Strong - experienced team"
  else if score ≥ 4 then "Average - mixed experience"
  else "Weak - limited relevant experience"

/-- Embedded `_generate_funding_assessment` (tools.py lines 385-394). -/
def generate_funding_assessment (score : ℚ) : String :=
  if score ≥ 8 then "Excellent - highly efficient capital usage"
  else if score ≥ 6 then "Good - reasonable funding efficiency"
  else if score ≥ 4 then "Average - typical capital requirements"
  else "Poor - inefficient capital usage"

/-- The benchmarks dictionary built by `_generate_dynamic_benchmarks`
(tools.py lines 132-139), one field per key in dict insertion order:
financial, traction, market, technology, team, funding. -/
structure Benchmarks where
  financial_benchmarks : List BenchmarkMetric
  traction_benchmarks : List BenchmarkMetric
  market_benchmarks : List BenchmarkMetric
  technology_benchmarks : List BenchmarkMetric
  team_benchmarks : List BenchmarkMetric
  funding_benchmarks : List BenchmarkMetric
deriving DecidableEq

/-- `benchmarks.values()` in dict insertion order. -/
def benchmarksValues (b : Benchmarks) : List (List BenchmarkMetric) :=
  [b.financial_benchmarks, b.traction_benchmarks, b.market_benchmarks,
   b.technology_benchmarks, b.team_benchmarks, b.funding_benchmarks]

/-- `benchmarks.items()` in dict insertion order. -/
def benchmarksItems (b : Benchmarks) : List (String × List BenchmarkMetric) :=
  [("financial_benchmarks", b.financial_benchmarks),
   ("traction_benchmarks", b.traction_benchmarks),
   ("market_benchmarks", b.market_benchmarks),
   ("technology_benchmarks", b.technology_benchmarks),
   ("team_benchmarks", b.team_benchmarks),
   ("funding_benchmarks", b.funding_benchmarks)]

/-- Embedded `_generate_dynamic_benchmarks` (tools.py lines 130-245),
keeping the `name`, `score`, `assessment` and `category` fields of each
metric (the formatted display strings are elided, see the module
comment). -/
def generate_dynamic_benchmarks (cd : CompanyData) : Benchmarks :=
  let sector := pyLower cd.sector
  let revenue_growth := cd.revenue_growth_yoy
  let sector_median_growth := get_sector_median sector "revenue_growth" 45
  let revenue_benchmark : BenchmarkMetric :=
    { name := "revenue_growth_yoy",
      score := calculate_percentile_score revenue_growth sector_median_growth "higher_better",
      assessment := generate_assessment revenue_growth sector_median_growth "higher_better",
      category := "Financial" }
  let burn_multiple := cd.burn_multiple
  let sector_burn_median := get_sector_median sector "burn_multiple" 3.5
  let burn_benchmark : BenchmarkMetric :=
    { name := "burn_multiple",
      score := calculate_percentile_score burn_multiple sector_burn_median "lower_better",
      assessment := generate_assessment burn_multiple sector_burn_median "lower_better",
      category := "Financial" }
  let tam := cd.total_addressable_market
  let tam_benchmark : BenchmarkMetric :=
    { name := "total_addressable_market",
      score := calculate_tam_score tam,
      assessment := generate_tam_assessment tam,
      category := "Market" }
  let tech_differentiation := cd.technology_differentiation_score
  let tech_benchmark : BenchmarkMetric :=
    { name := "technology_differentiation",
      score := tech_differentiation,
      assessment := generate_tech_assessment tech_differentiation,
      category := "Technology" }
  let team_experience := cd.team_experience_score
  let team_benchmark : BenchmarkMetric :=
    { name := "team_experience",
      score := team_experience,
      assessment := generate_team_assessment team_experience,
      category := "Team" }
  let customer_count := cd.customer_count
  let sector_customer_median := get_sector_median sector "customer_count" 500
  let traction_benchmark : BenchmarkMetric :=
    { name := "customer_count",
      score := calculate_percentile_score customer_count sector_customer_median "higher_better",
      assessment := generate_assessment customer_count sector_customer_median "higher_better",
      category := "Traction" }
  let funding_efficiency := cd.funding_efficiency_score
  let funding_benchmark : BenchmarkMetric :=
    { name := "funding_efficiency",
      score := funding_efficiency,
      assessment := generate_funding_assessment funding_efficiency,
      category := "Funding" }
  { financial_benchmarks := [revenue_benchmark, burn_benchmark],
    traction_benchmarks := [traction_benchmark],
    market_benchmarks := [tam_benchmark],
    technology_benchmarks := [tech_benchmark],
    team_benchmarks := [team_benchmark],
    funding_benchmarks := [funding_benchmark] }

/-- The `base_weights` dictionary of `_get_dynamic_weights`, one field per
key in dict insertion order: financial, market, technology, team,
traction, funding. -/
structure Weights where
  financial_benchmarks : ℚ
  market_benchmarks : ℚ
  technology_benchmarks : ℚ
  team_benchmarks : ℚ
  traction_benchmarks : ℚ
  funding_benchmarks : ℚ
deriving DecidableEq

/-- `weights.items()` in dict insertion order. -/
def weightsItems (w : Weights) : List (String × ℚ) :=
  [("financial_benchmarks", w.financial_benchmarks),
   ("market_benchmarks", w.market_benchmarks),
   ("technology_benchmarks", w.technology_benchmarks),
   ("team_benchmarks", w.team_benchmarks),
   ("traction_benchmarks", w.traction_benchmarks),
   ("funding_benchmarks", w.funding_benchmarks)]

/-- Embedded `_get_dynamic_weights` (tools.py lines 418-456): base table,
then the stage `if/elif` chain (Python substring tests), then the sector
`if/elif` chain, each applying additive deltas. -/
def get_dynamic_weights (stage sector : String) : Weights :=
  let base : Weights :=
    { financial_benchmarks := 0.25, market_benchmarks := 0.20,
      technology_benchmarks := 0.20, team_benchmarks := 0.15,
      traction_benchmarks := 0.15, funding_benchmarks := 0.05 }
  let w :=
    if strContains stage "seed" || strContains stage "pre_series_a" then
      { base with team_benchmarks := base.team_benchmarks + 0.10,
                  financial_benchmarks := base.financial_benchmarks - 0.05,
                  traction_benchmarks := base.traction_benchmarks - 0.05 }
    else if strContains stage "series_b" || strContains stage "growth" then
      { base with financial_benchmarks := base.financial_benchmarks + 0.10,
                  team_benchmarks := base.team_benchmarks - 0.05,
                  market_benchmarks := base.market_benchmarks - 0.05 }
    else if strContains stage "pre_ipo" || strContains stage "late" then
      { base with financial_benchmarks := base.financial_benchmarks + 0.15,
                  funding_benchmarks := base.funding_benchmarks + 0.05,
                  technology_benchmarks := base.technology_benchmarks - 0.10,
                  team_benchmarks := base.team_benchmarks - 0.10 }
    else base
  if sector = "fintech" then
    { w with financial_benchmarks := w.financial_benchmarks + 0.10,
             technology_benchmarks := w.technology_benchmarks + 0.05,
             market_benchmarks := w.market_benchmarks - 0.10,
             team_benchmarks := w.team_benchmarks - 0.05 }
  else if sector = "healthcare" || sector = "biotech" then
    { w with technology_benchmarks := w.technology_benchmarks + 0.10,
             team_benchmarks := w.team_benchmarks + 0.10,
             traction_benchmarks := w.traction_benchmarks - 0.10,
             financial_benchmarks := w.financial_benchmarks - 0.10 }
  else w

/-- Sum of the six category weights. -/
def weightsSum (w : Weights) : ℚ :=
  w.financial_benchmarks + w.market_benchmarks + w.technology_benchmarks +
  w.team_benchmarks + w.traction_benchmarks + w.funding_benchmarks

/-- The `category_scores` dictionary built by `_calculate_overall_score`
(tools.py lines 405-408): an association list holding, for every
non-empty category in dict order, the arithmetic mean of the member
metric scores. -/
def categoryScoresList (b : Benchmarks) : List (String × ℚ) :=
  (benchmarksItems b).foldl
    (fun acc p =>
      if p.2.isEmpty then acc
      else acc ++ [(p.1, (p.2.map (fun m => m.score)).sum / (p.2.length : ℚ))])
    []

/-- Model of Python `dict.get(key, default)` on a string-keyed
association list. -/
def dictGet (l : List (String × ℚ)) (key : String) (default : ℚ) : ℚ :=
  match l with
  | [] => default
  | p :: rest => if p.1 = key then p.2 else dictGet rest key default

/-- The weighted-sum loop of `_calculate_overall_score` (tools.py lines
410-416) over explicit weights: every category's weight contributes, a
category with no metrics contributing the default score 5.0, and the
result is rounded to one decimal. -/
def apply_weighted_score (b : Benchmarks) (weights : Weights) : ℚ :=
  let category_scores := categoryScoresList b
  let weighted_score :=
    (weightsItems weights).foldl
      (fun acc p => acc + (dictGet category_scores p.1 5.0) * p.2) 0.0
  pyRound1 weighted_score

/-- Embedded `_calculate_overall_score` (tools.py lines 396-416). -/
def calculate_overall_score (b : Benchmarks) (cd : CompanyData) : ℚ :=
  apply_weighted_score b (get_dynamic_weights (pyLower cd.stage) (pyLower cd.sector))

/-- Embedded `_determine_investment_recommendation` (tools.py lines 458-469). -/
def determine_investment_recommendation (overall_score : ℚ) : String :=
  if overall_score ≥ 9.0 then "STRONG BUY"
  else if overall_score ≥ 7.5 then "BUY"
  else if overall_score ≥ 6.0 then "HOLD"
  else if overall_score ≥ 4.0 then "WEAK BUY"
  else "AVOID"

/-- Embedded `_assess_return_potential` (tools.py lines 528-535). -/
def assess_return_potential (overall_score : ℚ) : String :=
  if overall_score ≥ 8.5 then "High"
  else if overall_score ≥ 6.5 then "Medium"
  else "Low"

/-- The pro/con line built for one metric:
`f"**{metric.name.replace('_',' ').title()}**: {metric.assessment}"`. -/
def formatMetricLine (m : BenchmarkMetric) : String :=
  "**" ++ pyTitle (replaceUnderscores m.name) ++ "**: " ++ m.assessment

/-- The flattened `all_metrics` list of the pros/cons generators:
`benchmark_metrics.values()` extended in dict order. -/
def allMetrics (b : Benchmarks) : List BenchmarkMetric :=
  (benchmarksValues b).foldl (fun acc l => acc ++ l) []

/-- Embedded `_generate_investment_pros` (tools.py lines 471-491):
stable-descending sort by score, take the top 6, keep those with score at
least 7.0, append the extra revenue-growth pro when the input growth
exceeds 100, truncate to 6. -/
def generate_investment_pros (b : Benchmarks) (cd : CompanyData) : List String :=
  let all_metrics := allMetrics b
  let top_metrics := (pySortedBy (fun x y => decide (y.score < x.score)) all_metrics).take 6
  let pros := top_metrics.foldl
    (fun acc m => if m.score ≥ 7.0 then acc ++ [formatMetricLine m] else acc) []
  let pros :=
    if cd.revenue_growth_yoy > 100 then
      pros ++ ["**Strong Revenue Growth**: " ++ toString cd.revenue_growth_yoy
               ++ "% YoY growth rate"]
    else pros
  pros.take 6

/-- The two standard risk cons appended unconditionally by
`_generate_investment_cons` (tools.py lines 510-513). -/
def standardCons : List String :=
  ["**Market Competition**: Intense competitive landscape",
   "**Execution Risk**: Achieving growth targets depends on execution"]

/-- Embedded `_generate_investment_cons` (tools.py lines 493-515):
stable-ascending sort by score, take the bottom 6, keep those with score
at most 5.0, append the two standard risk cons, truncate to 6. -/
def generate_investment_cons (b : Benchmarks) (_cd : CompanyData) : List String :=
  let all_metrics := allMetrics b
  let bottom_metrics := (pySortedBy (fun x y => decide (x.score < y.score)) all_metrics).take 6
  let cons := bottom_metrics.foldl
    (fun acc m => if m.score ≤ 5.0 then acc ++ [formatMetricLine m] else acc) []
  let cons := cons ++ standardCons
  cons.take 6

/-- Outcome of the underlying BigQuery `insert_rows_json` call, as seen by
`_save_to_bigquery`: the call either raises an exception or returns a
(possibly empty) list of row errors. -/
inductive InsertOutcome where
  | raises (msg : String)
  | returns (errs : List String)
deriving DecidableEq

/-- The raw warehouse insert as a fallible operation. -/
def insert_rows_json (o : InsertOutcome) : Except String (List String) :=
  match o with
  | .raises msg => .error msg
  | .returns errs => .ok errs

/-- Embedded `_save_to_bigquery` (tools.py lines 592-638): the whole body
is inside `try/except`, so an exception from the insert is converted to
`false`; a non-empty error list is converted to `false`; otherwise the
save reports `true`.  The function is total: no failure escapes it. -/
def save_to_bigquery (o : InsertOutcome) : Bool :=
  match insert_rows_json o with
  | .error _ => false
  | .ok errs => if ¬ errs.isEmpty then false else true

/-- The fields of the `analysis_result` dictionary built by
`analyze_startup_benchmarks` that are computed by the embedded scoring
core, plus the `bigquery_saved` flag.  Fields produced by ambient effects
in the source (`uuid`, current datetime) or by straight dictionary
copying are elided. -/
structure AnalysisResult where
  company_name : String
  benchmark_metrics : Benchmarks
  investment_recommendation : String
  overall_score : ℚ
  investment_pros : List String
  investment_cons : List String
  return_potential : String
  bigquery_saved : Bool
deriving DecidableEq

/-- Embedded `analyze_startup_benchmarks` (tools.py lines 69-128),
parameterised by the outcome of the warehouse insert.  The result type is
`Except` to model the outer `try/except`: a `.error` would correspond to
an uncaught exception inside the `try` block (the source's `except`
branch would then return an error dictionary); every step of the embedded
body is total, so the function always returns `.ok`.  The source first
builds `analysis_result`, then assigns `analysis_result["bigquery_saved"]
= success`, which the final record update mirrors. -/
def analyze_startup_benchmarks (cd : CompanyData) (o : InsertOutcome) :
    Except String AnalysisResult :=
  let benchmark_metrics := generate_dynamic_benchmarks cd
  let overall_score := calculate_overall_score benchmark_metrics cd
  let investment_rec := determine_investment_recommendation overall_score
  let analysis_result : AnalysisResult :=
    { company_name := cd.company_name,
      benchmark_metrics := benchmark_metrics,
      investment_recommendation := investment_rec,
      overall_score := overall_score,
      investment_pros := generate_investment_pros benchmark_metrics cd,
      investment_cons := generate_investment_cons benchmark_metrics cd,
      return_potential := assess_return_potential overall_score,
      bigquery_saved := false }
  let success := save_to_bigquery o
  .ok { analysis_result with bigquery_saved := success }

/-- Embedded `RiskFactor` dataclass (risk tools.py lines 38-47). -/
structure RiskFactor where
  name : String
  impact : String
  probability : String
  risk_score : String
  mitigation : String
  category : String := "Unknown"
  description : String := ""
deriving DecidableEq

/-- Embedded `_calculate_risk_score` (risk tools.py lines 206-219): the
nine-entry risk matrix dictionary, looked up with default `"Medium"`. -/
def calculate_risk_score (impact probability : String) : String :=
  if impact = "High" ∧ probability = "High" then "High"
  else if impact = "High" ∧ probability = "Medium" then "High"
  else if impact = "High" ∧ probability = "Low" then "Medium"
  else if impact = "Medium" ∧ probability = "High" then "High"
  else if impact = "Medium" ∧ probability = "Medium" then "Medium"
  else if impact = "Medium" ∧ probability = "Low" then "Low"
  else if impact = "Low" ∧ probability = "High" then "Medium"
  else if impact = "Low" ∧ probability = "Medium" then "Low"
  else if impact = "Low" ∧ probability = "Low" then "Low"
  else "Medium"

/-- Embedded `_calculate_overall_risk_score` (risk tools.py lines
237-250): count of factors whose `risk_score` is `"High"`, guarded
against an empty factor list, then the 0.4 / 0.2 fraction ladder. -/
def calculate_overall_risk_score (risk_factors : List RiskFactor) : String :=
  let high_count := (risk_factors.filter (fun r => r.risk_score = "High")).length
  let total_count := risk_factors.length
  if total_count = 0 then "Medium"
  else if (high_count : ℚ) / (total_count : ℚ) ≥ 0.4 then "High"
  else if (high_count : ℚ) / (total_count : ℚ) ≥ 0.2 then "Medium"
  else "Low"

/-- Result dictionary of one extraction strategy, as consumed by the
fallback pipeline: the `success` flag and the `word_count`, plus the
extracted text.  (Failure dictionaries carry `success = false`; their
`error` string plays no role in the chain's control flow.) -/
structure ExtractionResult where
  success : Bool
  word_count : Nat
  extracted_text : String := ""
deriving DecidableEq

/-- The acceptance test applied by the pipeline to the first four
strategies: `result["success"] and result["word_count"] > 50`. -/
def extractionAccepted (r : ExtractionResult) : Bool :=
  r.success && decide (r.word_count > 50)

/-- Embedded `enhanced_pdf_extraction_pipeline` (document agent.py lines
271-316), parameterised by the results `r1 .. r5` the five fixed
strategies would return (async Vision OCR, pdfplumber, PyMuPDF,
PDF-to-images + Vision, PyPDF2).  The first component is `some` accepted
result, or `none` when every method failed (the source then returns its
static all-failed error dictionary).  The second component instruments
the chain with the 1-based indices of the strategies invoked, in
invocation order. -/
def enhanced_pdf_extraction_pipeline (r1 r2 r3 r4 r5 : ExtractionResult) :
    Option ExtractionResult × List Nat :=
  if extractionAccepted r1 then (some r1, [1])
  else if extractionAccepted r2 then (some r2, [1, 2])
  else if extractionAccepted r3 then (some r3, [1, 2, 3])
  else if extractionAccepted r4 then (some r4, [1, 2, 3, 4])
  else if r5.success then (some r5, [1, 2, 3, 4, 5])
  else (none, [1, 2, 3, 4, 5])

/-- Spec-side ladder for `higher_is_better`, written from the claim's
words: 10.0 if ratio ≥ 2.0, else 8.5 if ratio ≥ 1.5, else 7.0 if ratio ≥
1.2, else 6.0 if ratio ≥ 1.0, else 4.0 if ratio ≥ 0.8, else 2.0. -/
def higherBetterLadder (ratio : ℚ) : ℚ :=
  if ratio ≥ 2.0 then 10.0
  else if ratio ≥ 1.5 then 8.5
  else if ratio ≥ 1.2 then 7.0
  else if ratio ≥ 1.0 then 6.0
  else if ratio ≥ 0.8 then 4.0
  else 2.0

/-- Spec-side mirror ladder for `lower_is_better`, written from the
claim's words: 10.0 if ratio ≤ 0.5, else 8.5 if ratio ≤ 0.7, else 7.0 if
ratio ≤ 0.9, else 6.0 if ratio ≤ 1.1, else 4.0 if ratio ≤ 1.3, else 2.0. -/
def lowerBetterLadder (ratio : ℚ) : ℚ :=
  if ratio ≤ 0.5 then 10.0
  else if ratio ≤ 0.7 then 8.5
  else if ratio ≤ 0.9 then 7.0
  else if ratio ≤ 1.1 then 6.0
  else if ratio ≤ 1.3 then 4.0
  else 2.0

/-- Spec-side category score, written from the claim's words: the
arithmetic mean of the member metric scores, with 5.0 substituted for a
category with no metrics. -/
def meanOr5 (metrics : List BenchmarkMetric) : ℚ :=
  if metrics.isEmpty then 5.0
  else (metrics.map (fun m => m.score)).sum / (metrics.length : ℚ)

/-- The fixed discrete score ladder of the engine: the six rung values of
the two percentile ladders together with the neutral 5.0. -/
def scoreLadderValues : List ℚ := [2.0, 4.0, 5.0, 6.0, 7.0, 8.5, 10.0]

/-- C1: for every raw value and every non-zero reference median, the
metric scorer with ratio = value/median follows, under the
higher-is-better direction, the ladder 10.0 / 8.5 / 7.0 / 6.0 / 4.0 / 2.0
at the thresholds 2.0 / 1.5 / 1.2 / 1.0 / 0.8, and under the
lower-is-better direction the mirror ladder at 0.5 / 0.7 / 0.9 / 1.1 /
1.3. -/
theorem percentile_score_matches_ladder (value median : ℚ) (h : median ≠ 0) :
    calculate_percentile_score value median "higher_better" =
      higherBetterLadder (value / median) ∧
    calculate_percentile_score value median "lower_better" =
      lowerBetterLadder (value / median) := by
  constructor <;>
    simp [calculate_percentile_score, higherBetterLadder, lowerBetterLadder, h]

/-- Witness for C1 at value 3, median 2. -/
theorem percentile_score_matches_ladder_witness :
    (2 : ℚ) ≠ 0 ∧
    (calculate_percentile_score 3 2 "higher_better" = higherBetterLadder (3 / 2) ∧
     calculate_percentile_score 3 2 "lower_better" = lowerBetterLadder (3 / 2)) :=
  ⟨by norm_num, percentile_score_matches_ladder 3 2 (by norm_num)⟩

/-- C2 counterexample: with a zero median the score is the neutral 5.0,
but the assessment string is "Insufficient data for comparison" with a
capital I, not the claimed all-lowercase "insufficient data for
comparison". -/
theorem zero_median_assessment_capitalised :
    calculate_percentile_score 3 0 "higher_better" = 5.0 ∧
    generate_assessment 3 0 "higher_better" = "Insufficient data for comparison" ∧
    generate_assessment 3 0 "higher_better" ≠ "insufficient data for comparison" := by
  refine ⟨by simp [calculate_percentile_score], by simp [generate_assessment], ?_⟩
  simp [generate_assessment]

/-- C2 amended: for every raw value and every direction string, a zero
reference median yields the neutral score 5.0 and the assessment
"Insufficient data for comparison" (capital I); the ratio branch is never
reached. -/
theorem zero_median_neutral (value : ℚ) (direction : String) :
    calculate_percentile_score value 0 direction = 5.0 ∧
    generate_assessment value 0 direction = "Insufficient data for comparison" := by
  constructor <;> simp [calculate_percentile_score, generate_assessment]

/-- C9: the risk-score matrix is commutative in its two arguments,
including unknown strings, which map to the default "Medium". -/
theorem risk_score_commutative (impact probability : String) :
    calculate_risk_score impact probability =
      calculate_risk_score probability impact := by
  unfold calculate_risk_score
  by_cases h1 : impact = "High" <;> by_cases h2 : impact = "Medium" <;>
    by_cases h3 : impact = "Low" <;> by_cases h4 : probability = "High" <;>
    by_cases h5 : probability = "Medium" <;> by_cases h6 : probability = "Low" <;>
    simp_all

/-- C10: the overall risk score is total, always one of "High", "Medium",
"Low", and the empty risk-factor list yields "Medium" (the division by
the factor count is guarded by the zero test). -/
theorem overall_risk_score_total (risk_factors : List RiskFactor) :
    (calculate_overall_risk_score risk_factors = "High" ∨
     calculate_overall_risk_score risk_factors = "Medium" ∨
     calculate_overall_risk_score risk_factors = "Low") ∧
    calculate_overall_risk_score [] = "Medium" := by
  constructor
  · unfold calculate_overall_risk_score
    dsimp only
    split_ifs <;> simp
  · rfl

/-- C4: for every stage string and every sector string, the six category
weights produced by the dynamic weight table sum to exactly 1 (the
stage and sector deltas are sum-preserving), and no individual weight is
negative. -/
theorem dynamic_weights_sum_one_and_nonneg (stage sector : String) :
    weightsSum (get_dynamic_weights stage sector) = 1 ∧
    0 ≤ (get_dynamic_weights stage sector).financial_benchmarks ∧
    0 ≤ (get_dynamic_weights stage sector).market_benchmarks ∧
    0 ≤ (get_dynamic_weights stage sector).technology_benchmarks ∧
    0 ≤ (get_dynamic_weights stage sector).team_benchmarks ∧
    0 ≤ (get_dynamic_weights stage sector).traction_benchmarks ∧
    0 ≤ (get_dynamic_weights stage sector).funding_benchmarks := by
  unfold get_dynamic_weights weightsSum
  dsimp only
  split_ifs <;> norm_num

/-- Bridge lemma: looking the financial category up in the
`category_scores` dictionary, with default 5.0, yields the mean-or-5.0
category score. -/
lemma dictGet_financial (b : Benchmarks) :
    dictGet (categoryScoresList b) "financial_benchmarks" 5.0 =
      meanOr5 b.financial_benchmarks := by
  by_cases h1 : b.financial_benchmarks = [] <;>
  by_cases h2 : b.traction_benchmarks = [] <;>
  by_cases h3 : b.market_benchmarks = [] <;>
  by_cases h4 : b.technology_benchmarks = [] <;>
  by_cases h5 : b.team_benchmarks = [] <;>
  by_cases h6 : b.funding_benchmarks = [] <;>
    simp [categoryScoresList, benchmarksItems, dictGet, meanOr5, h1, h2, h3, h4, h5, h6]

/-- Bridge lemma for the traction category, as for `dictGet_financial`. -/
lemma dictGet_traction (b : Benchmarks) :
    dictGet (categoryScoresList b) "traction_benchmarks" 5.0 =
      meanOr5 b.traction_benchmarks := by
  by_cases h1 : b.financial_benchmarks = [] <;>
  by_cases h2 : b.traction_benchmarks = [] <;>
  by_cases h3 : b.market_benchmarks = [] <;>
  by_cases h4 : b.technology_benchmarks = [] <;>
  by_cases h5 : b.team_benchmarks = [] <;>
  by_cases h6 : b.funding_benchmarks = [] <;>
    simp [categoryScoresList, benchmarksItems, dictGet, meanOr5, h1, h2, h3, h4, h5, h6]

/-- Bridge lemma for the market category, as for `dictGet_financial`. -/
lemma dictGet_market (b : Benchmarks) :
    dictGet (categoryScoresList b) "market_benchmarks" 5.0 =
      meanOr5 b.market_benchmarks := by
  by_cases h1 : b.financial_benchmarks = [] <;>
  by_cases h2 : b.traction_benchmarks = [] <;>
  by_cases h3 : b.market_benchmarks = [] <;>
  by_cases h4 : b.technology_benchmarks = [] <;>
  by_cases h5 : b.team_benchmarks = [] <;>
  by_cases h6 : b.funding_benchmarks = [] <;>
    simp [categoryScoresList, benchmarksItems, dictGet, meanOr5, h1, h2, h3, h4, h5, h6]

/-- Bridge lemma for the technology category, as for `dictGet_financial`. -/
lemma dictGet_technology (b : Benchmarks) :
    dictGet (categoryScoresList b) "technology_benchmarks" 5.0 =
      meanOr5 b.technology_benchmarks := by
  by_cases h1 : b.financial_benchmarks = [] <;>
  by_cases h2 : b.traction_benchmarks = [] <;>
  by_cases h3 : b.market_benchmarks = [] <;>
  by_cases h4 : b.technology_benchmarks = [] <;>
  by_cases h5 : b.team_benchmarks = [] <;>
  by_cases h6 : b.funding_benchmarks = [] <;>
    simp [categoryScoresList, benchmarksItems, dictGet, meanOr5, h1, h2, h3, h4, h5, h6]

/-- Bridge lemma for the team category, as for `dictGet_financial`. -/
lemma dictGet_team (b : Benchmarks) :
    dictGet (categoryScoresList b) "team_benchmarks" 5.0 =
      meanOr5 b.team_benchmarks := by
  by_cases h1 : b.financial_benchmarks = [] <;>
  by_cases h2 : b.traction_benchmarks = [] <;>
  by_cases h3 : b.market_benchmarks = [] <;>
  by_cases h4 : b.technology_benchmarks = [] <;>
  by_cases h5 : b.team_benchmarks = [] <;>
  by_cases h6 : b.funding_benchmarks = [] <;>
    simp [categoryScoresList, benchmarksItems, dictGet, meanOr5, h1, h2, h3, h4, h5, h6]

/-- Bridge lemma for the funding category, as for `dictGet_financial`. -/
lemma dictGet_funding (b : Benchmarks) :
    dictGet (categoryScoresList b) "funding_benchmarks" 5.0 =
      meanOr5 b.funding_benchmarks := by
  by_cases h1 : b.financial_benchmarks = [] <;>
  by_cases h2 : b.traction_benchmarks = [] <;>
  by_cases h3 : b.market_benchmarks = [] <;>
  by_cases h4 : b.technology_benchmarks = [] <;>
  by_cases h5 : b.team_benchmarks = [] <;>
  by_cases h6 : b.funding_benchmarks = [] <;>
    simp [categoryScoresList, benchmarksItems, dictGet, meanOr5, h1, h2, h3, h4, h5, h6]

/-- C7: for every grouped benchmark map and every weight table, the
overall score is the rounded-to-one-decimal weighted sum, over all six
categories, of the category's arithmetic-mean score, with 5.0 substituted
for a category with no metrics (the category is never excluded and the
weights are never re-normalised); and the overall-score entry point
applies exactly this computation to the stage/sector weight table. -/
theorem overall_score_weighted_category_means :
    (∀ (b : Benchmarks) (w : Weights),
      apply_weighted_score b w =
        pyRound1 (meanOr5 b.financial_benchmarks * w.financial_benchmarks +
                  meanOr5 b.market_benchmarks * w.market_benchmarks +
                  meanOr5 b.technology_benchmarks * w.technology_benchmarks +
                  meanOr5 b.team_benchmarks * w.team_benchmarks +
                  meanOr5 b.traction_benchmarks * w.traction_benchmarks +
                  meanOr5 b.funding_benchmarks * w.funding_benchmarks)) ∧
    (∀ (b : Benchmarks) (cd : CompanyData),
      calculate_overall_score b cd =
        apply_weighted_score b
          (get_dynamic_weights (pyLower cd.stage) (pyLower cd.sector))) := by
  constructor
  · intro b w
    unfold apply_weighted_score
    dsimp only
    simp only [weightsItems, List.foldl]
    rw [dictGet_financial, dictGet_market, dictGet_technology, dictGet_team,
        dictGet_traction, dictGet_funding]
    congr 1
    ring
  · intro b cd
    rfl

/-- C8: for every company input and every outcome of the warehouse
insert, the benchmark analysis never propagates a failure from the save
step: it returns the complete analysis result, whose `bigquery_saved`
flag is true exactly when the insert succeeded with an empty error list
(and false when the insert raised or reported errors), and whose scoring
fields are the ones the scoring core computes. -/
theorem analysis_survives_save_failure (cd : CompanyData) (o : InsertOutcome) :
    ∃ r : AnalysisResult,
      analyze_startup_benchmarks cd o = .ok r ∧
      (r.bigquery_saved = true ↔ o = .returns []) ∧
      r.benchmark_metrics = generate_dynamic_benchmarks cd ∧
      r.overall_score = calculate_overall_score (generate_dynamic_benchmarks cd) cd ∧
      r.investment_recommendation = determine_investment_recommendation r.overall_score := by
  refine ⟨_, rfl, ?_, rfl, rfl, rfl⟩
  cases o with
  | raises msg => simp [analyze_startup_benchmarks, save_to_bigquery, insert_rows_json]
  | returns errs =>
      cases errs <;>
        simp [analyze_startup_benchmarks, save_to_bigquery, insert_rows_json]

/-- C5 counterexample: the fifth, final extraction strategy is accepted
on its success flag alone; a PyPDF2 result with success and word count 30
is returned by the pipeline even though it fails the claimed
`success AND word_count > 50` acceptance rule. -/
theorem extraction_final_fallback_ignores_word_count :
    (enhanced_pdf_extraction_pipeline
        { success := false, word_count := 0 } { success := false, word_count := 0 }
        { success := false, word_count := 0 } { success := false, word_count := 0 }
        { success := true, word_count := 30 }).1 =
      some { success := true, word_count := 30 } ∧
    extractionAccepted { success := true, word_count := 30 } = false := by
  constructor <;> rfl

/-- C5 amended: the first four strategies are each accepted iff
`success AND word_count > 50` and any other outcome advances the chain;
the fifth, final strategy is accepted iff `success` alone (its word count
is ignored); when every method fails the pipeline reports failure having
invoked all five strategies; and for strategies
`[A(fails), B(succeeds, 30 words), C(succeeds, 200 words)]` in positions
1-3 the chain returns C's result after invoking A and B first, in that
order. -/
theorem extraction_pipeline_chain (r1 r2 r3 r4 r5 : ExtractionResult) :
    (extractionAccepted r1 = true →
      enhanced_pdf_extraction_pipeline r1 r2 r3 r4 r5 = (some r1, [1])) ∧
    (extractionAccepted r1 = false → extractionAccepted r2 = true →
      enhanced_pdf_extraction_pipeline r1 r2 r3 r4 r5 = (some r2, [1, 2])) ∧
    (extractionAccepted r1 = false → extractionAccepted r2 = false →
      extractionAccepted r3 = true →
      enhanced_pdf_extraction_pipeline r1 r2 r3 r4 r5 = (some r3, [1, 2, 3])) ∧
    (extractionAccepted r1 = false → extractionAccepted r2 = false →
      extractionAccepted r3 = false → extractionAccepted r4 = true →
      enhanced_pdf_extraction_pipeline r1 r2 r3 r4 r5 = (some r4, [1, 2, 3, 4])) ∧
    (extractionAccepted r1 = false → extractionAccepted r2 = false →
      extractionAccepted r3 = false → extractionAccepted r4 = false →
      r5.success = true →
      enhanced_pdf_extraction_pipeline r1 r2 r3 r4 r5 = (some r5, [1, 2, 3, 4, 5])) ∧
    (extractionAccepted r1 = false → extractionAccepted r2 = false →
      extractionAccepted r3 = false → extractionAccepted r4 = false →
      r5.success = false →
      enhanced_pdf_extraction_pipeline r1 r2 r3 r4 r5 = (none, [1, 2, 3, 4, 5])) ∧
    (r1.success = false → r2.success = true → r2.word_count = 30 →
      r3.success = true → r3.word_count = 200 →
      enhanced_pdf_extraction_pipeline r1 r2 r3 r4 r5 = (some r3, [1, 2, 3])) := by
  refine ⟨?_, ?_, ?_, ?_, ?_, ?_, ?_⟩
  · intro h1
    simp [enhanced_pdf_extraction_pipeline, h1]
  · intro h1 h2
    simp [enhanced_pdf_extraction_pipeline, h1, h2]
  · intro h1 h2 h3
    simp [enhanced_pdf_extraction_pipeline, h1, h2, h3]
  · intro h1 h2 h3 h4
    simp [enhanced_pdf_extraction_pipeline, h1, h2, h3, h4]
  · intro h1 h2 h3 h4 h5
    simp [enhanced_pdf_extraction_pipeline, h1, h2, h3, h4, h5]
  · intro h1 h2 h3 h4 h5
    simp [enhanced_pdf_extraction_pipeline, h1, h2, h3, h4, h5]
  · intro h1 h2 h3 h4 h5
    simp [enhanced_pdf_extraction_pipeline, extractionAccepted, h1, h2, h3, h4, h5]

/-- Witness for C5 at the claim's example strategies, exercising the
example conjunct of the amended theorem. -/
theorem extraction_pipeline_chain_witness :
    ({ success := false, word_count := 0 } : ExtractionResult).success = false ∧
    ({ success := true, word_count := 30 } : ExtractionResult).success = true ∧
    ({ success := true, word_count := 30 } : ExtractionResult).word_count = 30 ∧
    ({ success := true, word_count := 200 } : ExtractionResult).success = true ∧
    ({ success := true, word_count := 200 } : ExtractionResult).word_count = 200 ∧
    enhanced_pdf_extraction_pipeline
        { success := false, word_count := 0 } { success := true, word_count := 30 }
        { success := true, word_count := 200 } { success := false, word_count := 0 }
        { success := false, word_count := 0 } =
      (some { success := true, word_count := 200 }, [1, 2, 3]) :=
  ⟨rfl, rfl, rfl, rfl, rfl,
    (extraction_pipeline_chain _ _ _ _ _).2.2.2.2.2.2 rfl rfl rfl rfl rfl⟩

/-- Every percentile score lies on the engine's fixed discrete ladder. -/
lemma percentile_score_mem_ladder (value median : ℚ) (direction : String) :
    calculate_percentile_score value median direction ∈ scoreLadderValues := by
  unfold calculate_percentile_score scoreLadderValues
  dsimp only
  split_ifs <;> norm_num

/-- Every TAM score lies on the engine's fixed discrete ladder. -/
lemma tam_score_mem_ladder (tam : ℚ) :
    calculate_tam_score tam ∈ scoreLadderValues := by
  unfold calculate_tam_score scoreLadderValues
  split_ifs <;> norm_num

/-- Every ladder value lies in the closed interval [0, 10]. -/
lemma ladder_values_in_range (x : ℚ) (hx : x ∈ scoreLadderValues) :
    0 ≤ x ∧ x ≤ 10 := by
  simp [scoreLadderValues] at hx
  rcases hx with h | h | h | h | h | h | h <;> subst h <;> norm_num

/-- C3 counterexample: the technology metric's score is a raw
pass-through of the input field, so an input of 15 produces a benchmark
metric whose score is 15, outside the closed interval [0, 10] and off the
discrete ladder. -/
theorem technology_score_escapes_range :
    ((generate_dynamic_benchmarks
        ({ technology_differentiation_score := 15 } : CompanyData)).technology_benchmarks.map
      (fun m => m.score)) = [15] ∧
    ¬ ((15 : ℚ) ≤ 10) := by
  constructor
  · simp [generate_dynamic_benchmarks]
  · norm_num

/-- C3 amended: the four computed metrics (revenue growth, burn multiple,
customer count, TAM) always score on the fixed discrete ladder, hence in
[0, 10]; the technology, team and funding metric scores are raw
pass-throughs of the corresponding input fields, so every generated
metric scores in [0, 10] exactly when those three input fields do. -/
theorem benchmark_scores_range_and_ladder (cd : CompanyData)
    (htech1 : 0 ≤ cd.technology_differentiation_score)
    (htech2 : cd.technology_differentiation_score ≤ 10)
    (hteam1 : 0 ≤ cd.team_experience_score)
    (hteam2 : cd.team_experience_score ≤ 10)
    (hfund1 : 0 ≤ cd.funding_efficiency_score)
    (hfund2 : cd.funding_efficiency_score ≤ 10) :
    (∀ m ∈ allMetrics (generate_dynamic_benchmarks cd), 0 ≤ m.score ∧ m.score ≤ 10) ∧
    (∀ m ∈ (generate_dynamic_benchmarks cd).financial_benchmarks,
      m.score ∈ scoreLadderValues) ∧
    (∀ m ∈ (generate_dynamic_benchmarks cd).traction_benchmarks,
      m.score ∈ scoreLadderValues) ∧
    (∀ m ∈ (generate_dynamic_benchmarks cd).market_benchmarks,
      m.score ∈ scoreLadderValues) ∧
    ((generate_dynamic_benchmarks cd).technology_benchmarks.map (fun m => m.score) =
      [cd.technology_differentiation_score]) ∧
    ((generate_dynamic_benchmarks cd).team_benchmarks.map (fun m => m.score) =
      [cd.team_experience_score]) ∧
    ((generate_dynamic_benchmarks cd).funding_benchmarks.map (fun m => m.score) =
      [cd.funding_efficiency_score]) := by
  refine ⟨?_, ?_, ?_, ?_, by simp [generate_dynamic_benchmarks],
          by simp [generate_dynamic_benchmarks], by simp [generate_dynamic_benchmarks]⟩
  · intro m hm
    simp [allMetrics, benchmarksValues, generate_dynamic_benchmarks] at hm
    rcases hm with h | h | h | h | h | h | h <;> subst h <;>
      first
        | exact ladder_values_in_range _ (percentile_score_mem_ladder _ _ _)
        | exact ladder_values_in_range _ (tam_score_mem_ladder _)
        | exact ⟨htech1, htech2⟩
        | exact ⟨hteam1, hteam2⟩
        | exact ⟨hfund1, hfund2⟩
  · intro m hm
    simp [generate_dynamic_benchmarks] at hm
    rcases hm with h | h <;> subst h <;> exact percentile_score_mem_ladder _ _ _
  · intro m hm
    simp [generate_dynamic_benchmarks] at hm
    subst hm
    exact percentile_score_mem_ladder _ _ _
  · intro m hm
    simp [generate_dynamic_benchmarks] at hm
    subst hm
    exact tam_score_mem_ladder _

/-- Witness for C3 at the all-defaults company input (the three
pass-through inputs default to 5, inside [0, 10]). -/
theorem benchmark_scores_range_and_ladder_witness :
    (0 ≤ ({} : CompanyData).technology_differentiation_score ∧
     ({} : CompanyData).technology_differentiation_score ≤ 10 ∧
     0 ≤ ({} : CompanyData).team_experience_score ∧
     ({} : CompanyData).team_experience_score ≤ 10 ∧
     0 ≤ ({} : CompanyData).funding_efficiency_score ∧
     ({} : CompanyData).funding_efficiency_score ≤ 10) ∧
    (∀ m ∈ allMetrics (generate_dynamic_benchmarks ({} : CompanyData)),
      0 ≤ m.score ∧ m.score ≤ 10) :=
  ⟨⟨by norm_num, by norm_num, by norm_num, by norm_num, by norm_num, by norm_num⟩,
   (benchmark_scores_range_and_ladder {} (by norm_num) (by norm_num) (by norm_num)
      (by norm_num) (by norm_num) (by norm_num)).1⟩

/-- The metric-derived part of the pros list: top 6 by stable descending
sort, kept when scoring at least 7.0 (tools.py lines 477-485). -/
def prosFromMetrics (b : Benchmarks) : List String :=
  ((pySortedBy (fun x y => decide (y.score < x.score)) (allMetrics b)).take 6).foldl
    (fun acc m => if m.score ≥ 7.0 then acc ++ [formatMetricLine m] else acc) []

/-- The metric-derived part of the cons list: bottom 6 by stable
ascending sort, kept when scoring at most 5.0 (tools.py lines 498-507). -/
def consFromMetrics (b : Benchmarks) : List String :=
  ((pySortedBy (fun x y => decide (x.score < y.score)) (allMetrics b)).take 6).foldl
    (fun acc m => if m.score ≤ 5.0 then acc ++ [formatMetricLine m] else acc) []

/-- The six-metric example of the claim, with scores 9, 8, 7, 6, 5, 2 in
first-seen input order. -/
def exampleSixMetrics : Benchmarks :=
  { financial_benchmarks :=
      [{ name := "metric_one", score := 9, assessment := "assessment one",
         category := "Financial" },
       { name := "metric_two", score := 8, assessment := "assessment two",
         category := "Financial" }],
    traction_benchmarks :=
      [{ name := "metric_three", score := 7, assessment := "assessment three",
         category := "Traction" }],
    market_benchmarks :=
      [{ name := "metric_four", score := 6, assessment := "assessment four",
         category := "Market" }],
    technology_benchmarks :=
      [{ name := "metric_five", score := 5, assessment := "assessment five",
         category := "Technology" }],
    team_benchmarks :=
      [{ name := "metric_six", score := 2, assessment := "assessment six",
         category := "Team" }],
    funding_benchmarks := [] }

/-- C6 counterexample: for the six metrics scored [9, 8, 7, 6, 5, 2] the
cons list is not exactly the two metrics scoring at most 5: the source
appends two standard risk entries, so the list has four elements. -/
theorem cons_not_only_low_metrics :
    generate_investment_cons exampleSixMetrics {} =
      ["**Metric Six**: assessment six", "**Metric Five**: assessment five",
       "**Market Competition**: Intense competitive landscape",
       "**Execution Risk**: Achieving growth targets depends on execution"] ∧
    generate_investment_cons exampleSixMetrics {} ≠
      ["**Metric Six**: assessment six", "**Metric Five**: assessment five"] := by
  have h : generate_investment_cons exampleSixMetrics {} =
      ["**Metric Six**: assessment six", "**Metric Five**: assessment five",
       "**Market Competition**: Intense competitive landscape",
       "**Execution Risk**: Achieving growth targets depends on execution"] := by
    norm_num [generate_investment_cons, allMetrics, benchmarksValues, exampleSixMetrics,
              pySortedBy, stableInsert, standardCons]
    all_goals decide
  refine ⟨h, ?_⟩
  rw [h]
  simp

/-- C6 amended: the pros list is the metric-derived pros (top 6 by stable
descending score, kept at score at least 7.0), plus an extra
revenue-growth entry when the input growth exceeds 100, truncated to 6;
the cons list is the metric-derived cons (bottom 6 by stable ascending
score, kept at score at most 5.0) always followed by the two standard
risk entries, truncated to 6; for the six metrics scored
[9, 8, 7, 6, 5, 2] the pros are exactly the three metrics scoring at
least 7 in descending order, and the cons are the two metrics scoring at
most 5 followed by the two standard entries. -/
theorem pros_cons_selection :
    (∀ (b : Benchmarks) (cd : CompanyData),
      generate_investment_pros b cd =
        ((if cd.revenue_growth_yoy > 100 then
            prosFromMetrics b ++
              ["**Strong Revenue Growth**: " ++ toString cd.revenue_growth_yoy
               ++ "% YoY growth rate"]
          else prosFromMetrics b).take 6)) ∧
    (∀ (b : Benchmarks) (cd : CompanyData),
      generate_investment_cons b cd = (consFromMetrics b ++ standardCons).take 6) ∧
    generate_investment_pros exampleSixMetrics {} =
      ["**Metric One**: assessment one", "**Metric Two**: assessment two",
       "**Metric Three**: assessment three"] ∧
    generate_investment_cons exampleSixMetrics {} =
      ["**Metric Six**: assessment six", "**Metric Five**: assessment five"] ++
        standardCons := by
  refine ⟨fun b cd => rfl, fun b cd => rfl, ?_, ?_⟩
  · norm_num [generate_investment_pros, allMetrics, benchmarksValues, exampleSixMetrics,
              pySortedBy, stableInsert]
    all_goals decide
  · norm_num [generate_investment_cons, allMetrics, benchmarksValues, exampleSixMetrics,
              pySortedBy, stableInsert, standardCons]
    all_goals decide
